import Mathlib

/-!
Verification of the S3 batch-kwargs generator
(`great_expectations/datasource/generator/s3_generator.py`).

The Python class `S3Generator` is shallowly embedded below.  Python
dictionaries used as string-to-string option mappings are modelled as
lookup functions `String → Option String`; Python `dict.update` is
modelled through its effect on lookups.  The S3 client, the `re` module
and the system clock are external collaborators and are modelled as an
explicit environment of functions.  The paginated generator
`_get_asset_options` is modelled as a fuelled function returning the
fully consumed key sequence together with the final per-asset cursor
state (`none` = fuel exhausted, i.e. the backend kept reporting
truncation for longer than the fuel allows).
-/

/-- Mapping used for `reader_options` dictionaries: lookup by key.
Models a Python `dict` of strings through its lookup behaviour. -/
def PyDict : Type := String → Option String

/-- Models Python `d.update(e)` through lookups: keys of `e` override
keys of `d`. -/
def pyUpdate (d e : PyDict) : PyDict :=
  fun k => match e k with
  | some v => some v
  | none => d k

/-- Models the Python built-in `s.startswith(p)`: code-point-sequence
prefix test. -/
def pyStartswith (s p : String) : Bool :=
  p.data.isPrefixOf s.data

/-- Models the Python slice `s[n:]` (drop the first `n` code points). -/
def pySliceFrom (s : String) (n : Nat) : String :=
  String.mk (s.data.drop n)

/-- Models the Python built-in `len` on strings (number of code points). -/
def pyLen (s : String) : Nat :=
  s.data.length

/-- Modelled from the spec: `ReaderMethods` from
`great_expectations.datasource.types` is not under `src`; per the spec
it is an enum of reader method names (csv, parquet, json, excel, ...). -/
inductive ReaderMethods where
  | csv
  | parquet
  | json
  | excel
deriving DecidableEq, Repr

/-- One entry of the `Contents` list of an S3 `list_objects_v2`
response: a key together with its object size. -/
structure S3Item where
  Key : String
  Size : Nat
deriving DecidableEq, Repr

/-- Response of one `list_objects_v2` call.  `Contents` and
`CommonPrefixes` are `none` when the corresponding field is absent from
the response dictionary (Python `"Contents" in asset_options` tests);
each element of `CommonPrefixes` stands for the `Prefix` entry of the
returned grouping.  `NextContinuationToken` is `none` when absent. -/
structure ListResp where
  Contents : Option (List S3Item)
  CommonPrefixes : Option (List String)
  IsTruncated : Bool
  NextContinuationToken : Option String

/-- Query options passed to `list_objects_v2`.  `PrefixQ` models the
`Prefix` entry of the `query_options` dictionary. -/
structure Query where
  Bucket : String
  Delimiter : String
  PrefixQ : Option String
  MaxKeys : Nat
  ContinuationToken : Option String

/-- Configuration of one asset, as read from the `assets` mapping.
Every field is optional because the Python code reads each one with
`asset_config.get(...)` and a default.  `prefixStr` models the
`"prefix"` entry (the word prefix alone is a Lean keyword). -/
structure AssetConfig where
  prefixStr : Option String := none
  delimiter : Option String := none
  regex_filter : Option String := none
  partition_regex : Option String := none
  match_group_id : Option Nat := none
  directory_assets : Option Bool := none
  max_keys : Option Nat := none
  reader_method : Option ReaderMethods := none
  reader_options : Option PyDict := none

/-- Generator-level state: the fields set by `S3Generator.__init__`.
The `assets` registry is modelled as a lookup function (`none` = asset
name not registered). -/
structure Gen where
  bucket : String
  reader_method : Option ReaderMethods
  reader_options : PyDict
  assets : String → Option AssetConfig
  delimiter : String
  max_keys : Nat

/-- External collaborators: the boto3 S3 client, Python `re.match`, and
the clock used by the partitioner fallbacks.  `reMatch pat s` is `none`
when `re.match(pat, s)` is `None`; otherwise it returns the group
accessor of the match object (`none` for a group index that raises
`IndexError`).  `utcnow` is the formatted current UTC timestamp. -/
structure Env where
  listObjects : Query → ListResp
  reMatch : String → String → Option (Nat → Option String)
  utcnow : String

/-- Payloads attached to `BatchKwargsError` at its several raise sites. -/
inductive ErrPayload where
  | unknownAsset (generator_asset : String) (reader_options : Option PyDict)
      (limit : Option Nat)
  | dirMismatch (asset_configuration : AssetConfig) (contents : Option (List S3Item))
  | objMismatch (asset_configuration : AssetConfig)
      (common_prefixes : Option (List String))
  | partitionNotFound (generator_asset : String) (partition_id : Option String)

/-- Exceptions that executions of the embedded code can raise:
the two great_expectations exception classes used by the source, plus
the Python built-in exceptions its slips can produce. -/
inductive PyError where
  | batchKwargsError (message : String) (payload : ErrPayload)
  | greatExpectationsError (message : String)
  | attributeError (message : String)
  | keyError (key : String)

/-- Exception class name of a raised error, as Python reports it. -/
def PyError.className : PyError → String
  | .batchKwargsError _ _ => "BatchKwargsError"
  | .greatExpectationsError _ => "GreatExpectationsError"
  | .attributeError _ => "AttributeError"
  | .keyError _ => "KeyError"

/-- Message of the directory-mode mismatch `BatchKwargsError`. -/
def dirMismatchMsg : String :=
  "Unable to build batch_kwargs. The asset may not be configured correctly. If dictionary assets are requested, then common prefixes must be returned."

/-- Message of the object-mode mismatch `BatchKwargsError`. -/
def objMismatchMsg : String :=
  "Unable to build batch_kwargs. The asset may not be configured correctly. If s3 returned common prefixes it may not have been able to identify desired keys, and they are included in the incomplete batch_kwargs object returned with this error."

/-- Embeds the `query_options` dictionary built at the top of
`_get_asset_options` (without the conditional `ContinuationToken`
entry, which is the `cursor` argument below). -/
def listQuery (gen : Gen) (cfg : AssetConfig) (cursor : Option String) : Query :=
  { Bucket := gen.bucket
    Delimiter := cfg.delimiter.getD gen.delimiter
    PrefixQ := cfg.prefixStr
    MaxKeys := cfg.max_keys.getD gen.max_keys
    ContinuationToken := cursor }

/-- Embeds `S3Generator._get_asset_options` (full consumption of the
generator).  `cursor` is the `continuation_token` entry of
`iterator_dict` (`none` = absent).  The result pairs the complete
yielded key sequence with the final `iterator_dict` content; the outer
`Option` is fuel for the recursive refetching (`none` = fuel ran out
before the backend stopped reporting truncation). -/
def getAssetOptions (env : Env) (gen : Gen) (cfg : AssetConfig) :
    Nat → Option String → Option (Except PyError (List String × Option String))
  | 0, _ => none
  | fuel + 1, cursor =>
    let resp := env.listObjects (listQuery gen cfg cursor)
    let keysE : Except PyError (List String) :=
      if cfg.directory_assets.getD false then
        match resp.CommonPrefixes with
        | none => .error (.batchKwargsError dirMismatchMsg
            (.dirMismatch cfg resp.Contents))
        | some cps => .ok cps
      else
        match resp.Contents with
        | none => .error (.batchKwargsError objMismatchMsg
            (.objMismatch cfg resp.CommonPrefixes))
        | some items =>
          .ok ((items.filter (fun it => 0 < it.Size)).map (fun it => it.Key))
    match keysE with
    | .error e => some (.error e)
    | .ok keys0 =>
      let keys := keys0.filter
        (fun x => (env.reMatch (cfg.regex_filter.getD ".*") x).isSome)
      if resp.IsTruncated then
        match resp.NextContinuationToken with
        | none => some (.error (.keyError "NextContinuationToken"))
        | some tok =>
          match getAssetOptions env gen cfg fuel (some tok) with
          | none => none
          | some (.error e) => some (.error e)
          | some (.ok pr) => some (.ok (keys ++ pr.1, pr.2))
      else
        some (.ok (keys, none))

/-- Argument actually passed for the `asset_config` parameter of
`_get_asset_options`: `_build_asset_iterator` passes the asset
configuration dictionary, while `build_batch_kwargs_from_partition_id`
and `get_available_partition_ids` pass the asset NAME (a `str`). -/
inductive ConfigArg where
  | ofName (generator_asset : String)
  | ofConfig (asset_config : AssetConfig)

/-- Embeds a call of `_get_asset_options` with either kind of argument.
When a `str` is passed where the asset configuration dictionary is
expected, the first statement of the generator body evaluates
`asset_config.get("delimiter", self._delimiter)` on it, which raises
`AttributeError` as soon as the generator is first advanced. -/
def getAssetOptionsDyn (env : Env) (gen : Gen) :
    ConfigArg → Nat → Option String →
    Option (Except PyError (List String × Option String))
  | .ofName _, _, _ =>
    some (.error (.attributeError "str object has no attribute get"))
  | .ofConfig cfg, fuel, cursor => getAssetOptions env gen cfg fuel cursor

/-- Embeds `S3Generator._partitioner`. -/
def partitioner (env : Env) (key : String) (cfg : AssetConfig) : String :=
  match cfg.partition_regex with
  | some pat =>
    let match_group_id := cfg.match_group_id.getD 1
    match env.reMatch pat key with
    | none => env.utcnow ++ "__unmatched"
    | some groups =>
      match groups match_group_id with
      | some g => g
      | none => env.utcnow ++ "__no_match_group"
  | none =>
    let p := cfg.prefixStr.getD ""
    if pyStartswith key p then pySliceFrom key (pyLen p) else key

/-- Batch kwargs produced by `_build_batch_kwargs`.  Modelled from the
spec: the `S3BatchKwargs` wrapper class lives in
`great_expectations.datasource.types`, which is not under `src`; per
the spec the descriptor carries the location, the merged reader
options, the optional reader method and the optional limit.  Field
names are the dictionary keys used by the source. -/
structure S3BatchKwargs where
  s3 : String
  reader_options : PyDict
  reader_method : Option ReaderMethods
  limit : Option Nat

/-- Embeds `S3Generator._build_batch_kwargs`.  The second component is
the generator state after the call: `batch_kwargs["reader_options"]`
is the very dictionary `self._reader_options` (the property returns
it), so the in-place `update` calls mutate the generator-level
mapping; the returned state records that mutation. -/
def buildBatchKwargs (gen : Gen) (key : String) (cfg : AssetConfig)
    (reader_options : Option PyDict) (limit : Option Nat) :
    S3BatchKwargs × Gen :=
  let ro1 := gen.reader_options
  let ro2 := match cfg.reader_options with
    | some d => pyUpdate ro1 d
    | none => ro1
  let ro3 := match reader_options with
    | some d => pyUpdate ro2 d
    | none => ro2
  let rm : Option ReaderMethods :=
    match cfg.reader_method with
    | some m => some m
    | none => gen.reader_method
  let lim : Option Nat :=
    match limit with
    | some (n + 1) => some (n + 1)
    | _ => none
  ({ s3 := "s3a://" ++ gen.bucket ++ "/" ++ key
     reader_options := ro3
     reader_method := rm
     limit := lim },
   { gen with reader_options := ro3 })

/-- Per-generator `_iterators` store: `none` = no entry for the name;
`some c` = an `iterator_dict` entry whose `continuation_token` content
is `c` (`none` = token absent from the dictionary). -/
def Iterators : Type := String → Option (Option String)

/-- Embeds `S3Generator._get_iterator` up to the point where the lazy
`_build_asset_iterator` generator object is created (its body has not
run yet, so no storage call happens here).  The `ok` value carries
what the created generator captures: the asset configuration, the
reader options and the limit.  The second component is the `_iterators`
store after the call. -/
def getIterator (gen : Gen) (iterators : Iterators) (generator_asset : String)
    (reader_options : Option PyDict) (limit : Option Nat) :
    Except PyError (AssetConfig × Option PyDict × Option Nat) × Iterators :=
  match gen.assets generator_asset with
  | none =>
    (.error (.batchKwargsError ("Unknown asset_name " ++ generator_asset)
        (.unknownAsset generator_asset reader_options limit)), iterators)
  | some asset_config =>
    let iterators1 : Iterators := fun n =>
      if n = generator_asset then some ((iterators generator_asset).getD none)
      else iterators n
    (.ok (asset_config, reader_options, limit), iterators1)

/-- Renders an optional string the way Python interpolates it into a
message (`None` for an absent value). -/
def optStr : Option String → String
  | some s => s
  | none => "None"

/-- Embeds `S3Generator.build_batch_kwargs_from_partition_id` (full
consumption).  Note the source passes `generator_asset` (a `str`) to
`_get_asset_options`, so the scan raises `AttributeError` on its first
step; the remainder of the loop is embedded faithfully anyway.  The
`ok` value carries the returned batch kwargs together with the
generator state and `_iterators` store after the call. -/
def buildBatchKwargsFromPartitionId (env : Env) (fuel : Nat) (gen : Gen)
    (iterators : Iterators) (generator_asset : String)
    (partition_id : Option String) (reader_options : Option PyDict)
    (limit : Option Nat) :
    Option (Except PyError (S3BatchKwargs × Gen × Iterators)) :=
  match gen.assets generator_asset with
  | none =>
    some (.error (.greatExpectationsError
      ("No asset config found for asset " ++ generator_asset)))
  | some asset_config =>
    let iterators1 : Iterators := fun n =>
      if n = generator_asset then some ((iterators generator_asset).getD none)
      else iterators n
    let cursor : Option String := (iterators1 generator_asset).getD none
    match getAssetOptionsDyn env gen (.ofName generator_asset) fuel cursor with
    | none => none
    | some (.error e) => some (.error e)
    | some (.ok (keys, cursor1)) =>
      let iterators2 : Iterators := fun n =>
        if n = generator_asset then some cursor1 else iterators1 n
      let step := fun (acc : Option S3BatchKwargs × Gen) (key : String) =>
        if partition_id = some (partitioner env key asset_config) then
          let r := buildBatchKwargs acc.2 key asset_config reader_options limit
          (some r.1, r.2)
        else acc
      let res := keys.foldl step (none, gen)
      match res.1 with
      | none =>
        some (.error (.batchKwargsError
          ("Unable to identify partition " ++ optStr partition_id ++
            " for asset " ++ generator_asset)
          (.partitionNotFound generator_asset partition_id)))
      | some bk => some (.ok (bk, res.2, iterators2))

/-- Embeds `S3Generator.get_available_partition_ids` (full
consumption).  The `_iterators` entry is created before the asset
lookup, so an unknown asset raises `KeyError` from
`self._assets[generator_asset]`.  The source again passes
`generator_asset` (a `str`) to `_get_asset_options`. -/
def getAvailablePartitionIds (env : Env) (fuel : Nat) (gen : Gen)
    (iterators : Iterators) (generator_asset : String) :
    Option (Except PyError (List String × Iterators)) :=
  let iterators1 : Iterators := fun n =>
    if n = generator_asset then some ((iterators generator_asset).getD none)
    else iterators n
  match gen.assets generator_asset with
  | none => some (.error (.keyError generator_asset))
  | some asset_config =>
    let cursor : Option String := (iterators1 generator_asset).getD none
    match getAssetOptionsDyn env gen (.ofName generator_asset) fuel cursor with
    | none => none
    | some (.error e) => some (.error e)
    | some (.ok (keys, cursor1)) =>
      let iterators2 : Iterators := fun n =>
        if n = generator_asset then some cursor1 else iterators1 n
      some (.ok (keys.map (fun key => partitioner env key asset_config),
        iterators2))

/-- Embeds `S3Generator._build_asset_iterator` (full consumption): maps
`_build_batch_kwargs` over the yielded keys, threading the generator
state (whose `reader_options` each build mutates). -/
def buildAssetIterator (env : Env) (fuel : Nat) (gen : Gen)
    (cfg : AssetConfig) (cursor : Option String)
    (reader_options : Option PyDict) (limit : Option Nat) :
    Option (Except PyError (List S3BatchKwargs × Gen × Option String)) :=
  match getAssetOptions env gen cfg fuel cursor with
  | none => none
  | some (.error e) => some (.error e)
  | some (.ok (keys, cursor1)) =>
    let res := keys.foldl
      (fun (acc : List S3BatchKwargs × Gen) key =>
        let r := buildBatchKwargs acc.2 key cfg reader_options limit
        (acc.1 ++ [r.1], r.2))
      ([], gen)
    some (.ok (res.1, res.2, cursor1))

/-! ## Concrete fixtures used by witnesses and counterexamples -/

/-- Match-everything regex environment: every pattern matches every
string (as `".*"` does), with no capture groups. -/
def cMatchAll : String → String → Option (Nat → Option String) :=
  fun _ _ => some (fun _ => none)

/-- Asset configuration of the spec scenario asset `access_logs`. -/
def cfgAL : AssetConfig := { prefixStr := some "access_logs/" }

/-- Generator owning only the asset `access_logs`. -/
def genAL : Gen :=
  { bucket := "my_bucket"
    reader_method := none
    reader_options := fun _ => none
    assets := fun n => if n = "access_logs" then some cfgAL else none
    delimiter := "/"
    max_keys := 1000 }

/-- Backend holding one matching object for the `access_logs` asset. -/
def envAL : Env :=
  { listObjects := fun _ =>
      { Contents := some [{ Key := "access_logs/2019-02.csv.gz", Size := 100 }]
        CommonPrefixes := none
        IsTruncated := false
        NextContinuationToken := none }
    reMatch := cMatchAll
    utcnow := "20190101T000000.000000Z" }

/-- Empty `_iterators` store. -/
def noIters : Iterators := fun _ => none

/-- Generator with an empty asset registry. -/
def genEmpty : Gen :=
  { bucket := "b"
    reader_method := none
    reader_options := fun _ => none
    assets := fun _ => none
    delimiter := "/"
    max_keys := 1000 }

/-- Class of the exception raised by a fallible result (`none` if the
computation succeeded). -/
def exceptClass {α : Type _} : Except PyError α → Option String
  | .error e => some e.className
  | .ok _ => none

/-! ## Claims -/

/-- C1: the spec says `build_batch_kwargs_from_partition_id` scans the
full paginated key sequence and returns the descriptor of the last key
whose partition identifier equals the request (or raises
`PartitionNotFoundError`).  The code instead passes the asset NAME (a
`str`) where `_get_asset_options` expects the asset configuration
dictionary, so every call raises `AttributeError` as soon as the scan
starts: at the scenario input (asset `access_logs`, a backend holding
exactly the matching key `access_logs/2019-02.csv.gz`) the call raises
`AttributeError` instead of returning that descriptor. -/
theorem C1_partition_lookup_raises_attribute_error :
    buildBatchKwargsFromPartitionId envAL 5 genAL noIters "access_logs"
      (some "2019-02.csv.gz") none none =
      some (.error (.attributeError "str object has no attribute get")) := rfl

/-- C3: the spec says `get_available_partition_ids` forces a full
paginated scan and returns one partition identifier per surfaced key.
The code passes the asset NAME (a `str`) to `_get_asset_options`, so
the scan raises `AttributeError` before yielding anything: at the
concrete input below the call raises instead of returning
`["2019-02.csv.gz"]`. -/
theorem C3_get_available_partition_ids_raises_attribute_error :
    getAvailablePartitionIds envAL 5 genAL noIters "access_logs" =
      some (.error (.attributeError "str object has no attribute get")) := rfl

/-- C4: the spec says building a batch descriptor leaves the
generator-level `reader_options` mapping equal to its construction
value.  In the code `batch_kwargs["reader_options"]` is the very
dictionary `self._reader_options`, so the in-place `update` with the
asset-level options mutates the generator-level mapping: at the
concrete input below the generator mapping changes from
`sep = ","` to `sep = "~"`. -/
theorem C4_builder_mutates_generator_reader_options :
    ((buildBatchKwargs
        { bucket := "b"
          reader_method := none
          reader_options := fun k => if k = "sep" then some "," else none
          assets := fun _ => none
          delimiter := "/"
          max_keys := 1000 }
        "k"
        { reader_options := some (fun k => if k = "sep" then some "~" else none) }
        none none).2.reader_options "sep" = some "~") ∧
    ((fun k => if k = "sep" then some "," else none : PyDict) "sep" = some ",") ∧
    (buildBatchKwargs
        { bucket := "b"
          reader_method := none
          reader_options := fun k => if k = "sep" then some "," else none
          assets := fun _ => none
          delimiter := "/"
          max_keys := 1000 }
        "k"
        { reader_options := some (fun k => if k = "sep" then some "~" else none) }
        none none).2.reader_options ≠
      (fun k => if k = "sep" then some "," else none) := by
  refine ⟨rfl, rfl, fun h => ?_⟩
  have h2 : (some "~" : Option String) = some "," := congrFun h "sep"
  exact absurd h2 (by decide)

/-- Lookup in an optional dictionary (`none` when the dictionary is
absent): used to state the reader-option merge. -/
def optLookup : Option PyDict → String → Option String
  | some d, k => d k
  | none, _ => none

/-- C5: for every built batch descriptor, the reader options are the
merge of generator-level, then asset-level, then per-call options with
later levels overriding earlier ones on shared keys, and the reader
method is the generator-level default overridden by the asset-level
value when present (per-call arguments never touch it). -/
theorem C5_reader_option_merge_order (gen : Gen) (cfg : AssetConfig)
    (key : String) (ro : Option PyDict) (limit : Option Nat) :
    (∀ k, (buildBatchKwargs gen key cfg ro limit).1.reader_options k =
      match optLookup ro k with
      | some v => some v
      | none =>
        match optLookup cfg.reader_options k with
        | some v => some v
        | none => gen.reader_options k) ∧
    (buildBatchKwargs gen key cfg ro limit).1.reader_method =
      (match cfg.reader_method with
       | some m => some m
       | none => gen.reader_method) := by
  constructor
  · intro k
    cases hro : ro <;> cases hcfg : cfg.reader_options <;>
      simp [buildBatchKwargs, pyUpdate, optLookup, hcfg]
  · cases h : cfg.reader_method <;> simp [buildBatchKwargs, h]

/-- C7: for an asset configured with directory assets, a backend
response without common-prefix information makes the listing fail with
the configuration-mismatch `BatchKwargsError`, whose payload carries
the asset configuration and whatever `Contents` the backend returned
(`none` when the field was absent). -/
theorem C7_directory_mode_mismatch_error (env : Env) (gen : Gen)
    (cfg : AssetConfig) (cursor : Option String) (fuel : Nat)
    (hdir : cfg.directory_assets.getD false = true)
    (hnone : (env.listObjects (listQuery gen cfg cursor)).CommonPrefixes = none) :
    getAssetOptions env gen cfg (fuel + 1) cursor =
      some (.error (.batchKwargsError dirMismatchMsg
        (.dirMismatch cfg
          (env.listObjects (listQuery gen cfg cursor)).Contents))) := by
  simp [getAssetOptions, hdir, hnone]

/-- Directory-mode asset configuration used by the C7 witness. -/
def cfgDir : AssetConfig := { directory_assets := some true }

/-- Backend returning only plain items (no common prefixes). -/
def envDir : Env :=
  { listObjects := fun _ =>
      { Contents := some [{ Key := "a/b.csv", Size := 3 }]
        CommonPrefixes := none
        IsTruncated := false
        NextContinuationToken := none }
    reMatch := cMatchAll
    utcnow := "20190101T000000.000000Z" }

/-- Witness for C7 at a concrete backend and configuration. -/
theorem C7_directory_mode_mismatch_error_witness :
    (cfgDir.directory_assets.getD false = true) ∧
    ((envDir.listObjects (listQuery genAL cfgDir none)).CommonPrefixes = none) ∧
    getAssetOptions envDir genAL cfgDir 1 none =
      some (.error (.batchKwargsError dirMismatchMsg
        (.dirMismatch cfgDir
          (envDir.listObjects (listQuery genAL cfgDir none)).Contents))) :=
  ⟨rfl, rfl, C7_directory_mode_mismatch_error envDir genAL cfgDir none 0 rfl rfl⟩

/-- C8: with no `partition_regex` configured, the partition identifier
of a key that extends the configured prefix is exactly the remaining
suffix, and the identifier of a key that does not start with the
prefix is the key unchanged. -/
theorem C8_partitioner_prefix_stripping (env : Env)
    (cfg : AssetConfig) (p suf key : String)
    (hnp : cfg.partition_regex = none) (hp : cfg.prefixStr = some p) :
    partitioner env (p ++ suf) cfg = suf ∧
      (pyStartswith key p = false → partitioner env key cfg = key) := by
  constructor
  · have hsw : pyStartswith (p ++ suf) p = true := by
      rw [pyStartswith, String.data_append, List.isPrefixOf_iff_prefix]
      exact List.prefix_append p.data suf.data
    simp only [partitioner, hnp, hp, Option.getD_some, hsw, if_pos]
    rw [pySliceFrom, pyLen, String.data_append, List.drop_left]
  · intro hks
    simp [partitioner, hnp, hp, hks]

/-- Witness for C8 on the spec scenario asset. -/
theorem C8_partitioner_prefix_stripping_witness :
    (cfgAL.partition_regex = none) ∧ (cfgAL.prefixStr = some "access_logs/") ∧
    (pyStartswith "other" "access_logs/" = false) ∧
    partitioner envAL ("access_logs/" ++ "2019-01.csv.gz") cfgAL =
      "2019-01.csv.gz" ∧
    partitioner envAL "other" cfgAL = "other" :=
  ⟨rfl, rfl, by decide,
    (C8_partitioner_prefix_stripping envAL cfgAL "access_logs/"
      "2019-01.csv.gz" "other" rfl rfl).1,
    (C8_partitioner_prefix_stripping envAL cfgAL "access_logs/"
      "2019-01.csv.gz" "other" rfl rfl).2 (by decide)⟩

/-- C9 counterexample: the claim says both request paths fail with the
SAME unknown-asset error class.  At the concrete unknown name `nope`,
`_get_iterator` raises `BatchKwargsError` while
`build_batch_kwargs_from_partition_id` raises the plain
`GreatExpectationsError` (it calls the one-argument constructor), so
the classes differ. -/
theorem C9_unknown_asset_error_classes_differ :
    ∃ e1 e2, (getIterator genEmpty noIters "nope" none none).1 = .error e1 ∧
      buildBatchKwargsFromPartitionId envAL 5 genEmpty noIters "nope"
        none none none = some (.error e2) ∧
      e1.className = "BatchKwargsError" ∧
      e2.className = "GreatExpectationsError" ∧
      e1.className ≠ e2.className :=
  ⟨.batchKwargsError "Unknown asset_name nope" (.unknownAsset "nope" none none),
   .greatExpectationsError "No asset config found for asset nope",
   rfl, rfl, rfl, rfl, by decide⟩

/-- C9 (amended): for an unregistered asset name, both requesting the
lazy descriptor sequence and requesting a descriptor by partition id
fail immediately — for every environment and even with zero fuel, so
before any storage call — but with different error classes:
`_get_iterator` raises `BatchKwargsError` while
`build_batch_kwargs_from_partition_id` raises `GreatExpectationsError`. -/
theorem C9_unknown_asset_fails_immediately_both_paths (env : Env)
    (fuel : Nat) (gen : Gen) (iters : Iterators) (name : String)
    (ro rops : Option PyDict) (limit : Option Nat) (pid : Option String)
    (h : gen.assets name = none) :
    getIterator gen iters name ro limit =
      (.error (.batchKwargsError ("Unknown asset_name " ++ name)
        (.unknownAsset name ro limit)), iters) ∧
    buildBatchKwargsFromPartitionId env fuel gen iters name pid rops limit =
      some (.error (.greatExpectationsError
        ("No asset config found for asset " ++ name))) := by
  constructor
  · simp [getIterator, h]
  · simp [buildBatchKwargsFromPartitionId, h]

/-- Witness for the amended C9 at a concrete unknown asset name, with
zero fuel (no backend interaction is possible). -/
theorem C9_unknown_asset_fails_immediately_both_paths_witness :
    (genEmpty.assets "nope" = none) ∧
    (getIterator genEmpty noIters "nope" none none =
      (.error (.batchKwargsError "Unknown asset_name nope"
        (.unknownAsset "nope" none none)), noIters) ∧
    buildBatchKwargsFromPartitionId envAL 0 genEmpty noIters "nope"
        none none none =
      some (.error (.greatExpectationsError
        "No asset config found for asset nope"))) :=
  ⟨rfl, C9_unknown_asset_fails_immediately_both_paths envAL 0 genEmpty
    noIters "nope" none none none none rfl⟩

/-- C10: `_get_iterator` on an unregistered asset name raises before
touching the `_iterators` store: the result state is exactly the input
store (no entry is created for the unknown name). -/
theorem C10_unknown_asset_leaves_iterators_unchanged (gen : Gen)
    (iters : Iterators) (name : String) (ro : Option PyDict)
    (limit : Option Nat) (h : gen.assets name = none) :
    getIterator gen iters name ro limit =
      (.error (.batchKwargsError ("Unknown asset_name " ++ name)
        (.unknownAsset name ro limit)), iters) := by
  simp [getIterator, h]

/-- Witness for C10 at a concrete unknown asset name. -/
theorem C10_unknown_asset_leaves_iterators_unchanged_witness :
    (genEmpty.assets "missing" = none) ∧
    getIterator genEmpty noIters "missing" none none =
      (.error (.batchKwargsError "Unknown asset_name missing"
        (.unknownAsset "missing" none none)), noIters) :=
  ⟨rfl, C10_unknown_asset_leaves_iterators_unchanged genEmpty noIters
    "missing" none none rfl⟩

/-- Keys surfaced from one object-mode page: keys of the size-positive
items, run through the regex filter. -/
def pageKeys (rm : String → String → Option (Nat → Option String))
    (cfg : AssetConfig) (items : List S3Item) : List String :=
  ((items.filter (fun it => 0 < it.Size)).map (fun it => it.Key)).filter
    (fun x => (rm (cfg.regex_filter.getD ".*") x).isSome)

/-- One unfolding step of `getAssetOptions` for a non-directory asset. -/
theorem getAssetOptions_obj_step (env : Env) (gen : Gen) (cfg : AssetConfig)
    (fuel : Nat) (cursor : Option String)
    (hdir : cfg.directory_assets.getD false = false) :
    getAssetOptions env gen cfg (fuel + 1) cursor =
      match (env.listObjects (listQuery gen cfg cursor)).Contents with
      | none => some (.error (.batchKwargsError objMismatchMsg
          (.objMismatch cfg
            (env.listObjects (listQuery gen cfg cursor)).CommonPrefixes)))
      | some items =>
        if (env.listObjects (listQuery gen cfg cursor)).IsTruncated then
          match (env.listObjects (listQuery gen cfg cursor)).NextContinuationToken with
          | none => some (.error (.keyError "NextContinuationToken"))
          | some tok =>
            match getAssetOptions env gen cfg fuel (some tok) with
            | none => none
            | some (.error e) => some (.error e)
            | some (.ok pr) =>
              some (.ok (pageKeys env.reMatch cfg items ++ pr.1, pr.2))
        else
          some (.ok (pageKeys env.reMatch cfg items, none)) := by
  cases hc : (env.listObjects (listQuery gen cfg cursor)).Contents with
  | none =>
    simp only [getAssetOptions, hdir, Bool.false_eq_true, if_false, hc]
  | some items =>
    simp only [getAssetOptions, hdir, Bool.false_eq_true, if_false, hc, pageKeys]

/-- C6: in object (non-directory) mode, every key surfaced by the full
paginated scan is the key of a size-positive `Contents` entry of some
page the backend returned: a zero-size entry is never surfaced. -/
theorem C6_zero_size_objects_never_surfaced (env : Env) (gen : Gen)
    (cfg : AssetConfig) (hdir : cfg.directory_assets.getD false = false) :
    ∀ (fuel : Nat) (cursor : Option String) (keys : List String)
      (fin : Option String),
      getAssetOptions env gen cfg fuel cursor = some (.ok (keys, fin)) →
      ∀ k ∈ keys, ∃ (c : Option String) (it : S3Item),
        it ∈ (env.listObjects (listQuery gen cfg c)).Contents.getD [] ∧
        it.Key = k ∧ 0 < it.Size := by
  intro fuel
  induction fuel with
  | zero =>
    intro cursor keys fin heq
    simp [getAssetOptions] at heq
  | succ fuel ih =>
    intro cursor keys fin heq k hk
    rw [getAssetOptions_obj_step env gen cfg fuel cursor hdir] at heq
    cases hc : (env.listObjects (listQuery gen cfg cursor)).Contents with
    | none => rw [hc] at heq; exact absurd heq (by simp)
    | some items =>
      rw [hc] at heq
      dsimp only at heq
      have pageCase : ∀ k2, k2 ∈ pageKeys env.reMatch cfg items →
          ∃ (c : Option String) (it : S3Item),
            it ∈ (env.listObjects (listQuery gen cfg c)).Contents.getD [] ∧
            it.Key = k2 ∧ 0 < it.Size := by
        intro k2 hk2
        have h1 := List.mem_filter.mp hk2
        obtain ⟨it, hit, hkey⟩ := List.mem_map.mp h1.1
        have h2 := List.mem_filter.mp hit
        refine ⟨cursor, it, ?_, hkey, of_decide_eq_true h2.2⟩
        rw [hc]
        exact h2.1
      by_cases ht : (env.listObjects (listQuery gen cfg cursor)).IsTruncated = true
      · rw [if_pos ht] at heq
        cases hnt : (env.listObjects (listQuery gen cfg cursor)).NextContinuationToken with
        | none => rw [hnt] at heq; exact absurd heq (by simp)
        | some tok =>
          rw [hnt] at heq
          dsimp only at heq
          cases hrec : getAssetOptions env gen cfg fuel (some tok) with
          | none => rw [hrec] at heq; exact absurd heq (by simp)
          | some r =>
            rw [hrec] at heq
            cases r with
            | error e => exact absurd heq (by simp)
            | ok pr =>
              simp only [Option.some.injEq, Except.ok.injEq, Prod.mk.injEq] at heq
              obtain ⟨hkeys, hfin⟩ := heq
              subst hkeys
              rcases List.mem_append.mp hk with hleft | hright
              · exact pageCase k hleft
              · exact ih (some tok) pr.1 pr.2 (by rw [hrec]) k hright
      · rw [if_neg ht] at heq
        simp only [Option.some.injEq, Except.ok.injEq, Prod.mk.injEq] at heq
        obtain ⟨hkeys, hfin⟩ := heq
        subst hkeys
        exact pageCase k hk

/-- Witness for C6 on the spec scenario backend: the single surfaced
key is backed by a size-100 entry. -/
theorem C6_zero_size_objects_never_surfaced_witness :
    (cfgAL.directory_assets.getD false = false) ∧
    (getAssetOptions envAL genAL cfgAL 1 none =
      some (.ok (["access_logs/2019-02.csv.gz"], none))) ∧
    (∀ k ∈ ["access_logs/2019-02.csv.gz"], ∃ (c : Option String) (it : S3Item),
      it ∈ (envAL.listObjects (listQuery genAL cfgAL c)).Contents.getD [] ∧
      it.Key = k ∧ 0 < it.Size) :=
  ⟨rfl, rfl,
    C6_zero_size_objects_never_surfaced envAL genAL cfgAL rfl 1 none
      ["access_logs/2019-02.csv.gz"] none rfl⟩

/-- An untruncated object-mode page. -/
def objectPage (items : List S3Item) (trunc : Bool) (tok : Option String) :
    ListResp :=
  { Contents := some items
    CommonPrefixes := none
    IsTruncated := trunc
    NextContinuationToken := tok }

/-- Opaque continuation token naming page `i` (the code only passes
tokens back verbatim, so any injective naming captures the general
backend). -/
def pageTok (i : Nat) : String := String.mk (List.replicate i 'x')

/-- Page index denoted by a continuation token (`none` = first page). -/
def tokIdx : Option String → Nat
  | none => 0
  | some t => t.data.length

/-- Backend that splits its items across `pages.length` pages, setting
the truncation flag and a continuation token on every page but the
last. -/
def pagedBackend (pages : List (List S3Item)) (q : Query) : ListResp :=
  objectPage (pages.getD (tokIdx q.ContinuationToken) [])
    (decide (tokIdx q.ContinuationToken + 1 < pages.length))
    (if tokIdx q.ContinuationToken + 1 < pages.length then
      some (pageTok (tokIdx q.ContinuationToken + 1))
     else none)

/-- Follows the spec words for C2: a backend answering every request
with one single untruncated page holding all the items. -/
def singleBackend (items : List S3Item) (_ : Query) : ListResp :=
  objectPage items false none

/-- Environment with the given backend. -/
def envOf (b : Query → ListResp)
    (rm : String → String → Option (Nat → Option String)) (now : String) :
    Env :=
  { listObjects := b, reMatch := rm, utcnow := now }

/-- The per-page key computation distributes over item concatenation. -/
theorem pageKeys_append (rm : String → String → Option (Nat → Option String))
    (cfg : AssetConfig) (l1 l2 : List S3Item) :
    pageKeys rm cfg (l1 ++ l2) = pageKeys rm cfg l1 ++ pageKeys rm cfg l2 := by
  simp [pageKeys]

/-- Decoding the token of page `i` gives back `i`. -/
theorem tokIdx_pageTok (i : Nat) : tokIdx (some (pageTok i)) = i := by
  simp [tokIdx, pageTok]

/-- Running the full paginated scan against `pagedBackend pages` from
the page denoted by the cursor yields the processed keys of all
remaining pages and clears the token. -/
theorem pagedBackend_run (pages : List (List S3Item)) (gen : Gen)
    (cfg : AssetConfig) (rm : String → String → Option (Nat → Option String))
    (now : String) (hdir : cfg.directory_assets.getD false = false) :
    ∀ (fuel : Nat) (c : Option String),
      tokIdx c < pages.length → pages.length ≤ tokIdx c + fuel →
      getAssetOptions (envOf (pagedBackend pages) rm now) gen cfg fuel c =
        some (.ok (pageKeys rm cfg (pages.drop (tokIdx c)).flatten, none)) := by
  intro fuel
  induction fuel with
  | zero => intro c h1 h2; omega
  | succ fuel ih =>
    intro c h1 h2
    rw [getAssetOptions_obj_step _ gen cfg fuel c hdir]
    have hresp : (envOf (pagedBackend pages) rm now).listObjects
        (listQuery gen cfg c) =
        objectPage (pages.getD (tokIdx c) [])
          (decide (tokIdx c + 1 < pages.length))
          (if tokIdx c + 1 < pages.length then some (pageTok (tokIdx c + 1))
           else none) := rfl
    rw [hresp]
    dsimp only [objectPage]
    by_cases htr : tokIdx c + 1 < pages.length
    · rw [if_pos (decide_eq_true htr), if_pos htr]
      dsimp only
      rw [ih (some (pageTok (tokIdx c + 1)))
        (by rw [tokIdx_pageTok]; exact htr)
        (by rw [tokIdx_pageTok]; omega)]
      rw [tokIdx_pageTok]
      rw [List.drop_eq_getElem_cons h1]
      rw [List.flatten_cons, pageKeys_append, List.getD_eq_getElem pages [] h1]
      rfl
    · have hfalse : decide (tokIdx c + 1 < pages.length) = false :=
        decide_eq_false htr
      rw [hfalse]
      simp only [Bool.false_eq_true, if_false]
      have hlast : tokIdx c + 1 = pages.length := by omega
      rw [List.drop_eq_getElem_cons h1, hlast, List.drop_length]
      rw [List.flatten_cons, List.flatten_nil, List.append_nil,
        List.getD_eq_getElem pages [] h1]
      rfl

/-- C2: fully consuming the key sequence of a backend that splits the
items across several truncated pages yields exactly what the same code
yields against a single untruncated page holding all those items, and
the stored continuation token is absent after full consumption. -/
theorem C2_pagination_is_transparent (pages : List (List S3Item))
    (gen : Gen) (cfg : AssetConfig)
    (rm : String → String → Option (Nat → Option String)) (now : String)
    (fuel : Nat) (hdir : cfg.directory_assets.getD false = false)
    (hne : 0 < pages.length) (hfuel : pages.length ≤ fuel) :
    getAssetOptions (envOf (pagedBackend pages) rm now) gen cfg fuel none =
      getAssetOptions (envOf (singleBackend pages.flatten) rm now) gen cfg
        1 none ∧
    getAssetOptions (envOf (pagedBackend pages) rm now) gen cfg fuel none =
      some (.ok (pageKeys rm cfg pages.flatten, none)) := by
  have hMulti := pagedBackend_run pages gen cfg rm now hdir fuel none hne
    (by simpa [tokIdx] using hfuel)
  rw [show tokIdx none = 0 from rfl, List.drop_zero] at hMulti
  have hSingle : getAssetOptions (envOf (singleBackend pages.flatten) rm now)
      gen cfg 1 none = some (.ok (pageKeys rm cfg pages.flatten, none)) := by
    rw [getAssetOptions_obj_step _ gen cfg 0 none hdir]
    rfl
  exact ⟨hMulti.trans hSingle.symm, hMulti⟩

/-- Pages used by the C2 witness: three matching keys split across two
truncated pages (with a zero-size marker mixed in). -/
def cPages : List (List S3Item) :=
  [[{ Key := "access_logs/2019-01.csv.gz", Size := 10 }],
   [{ Key := "access_logs/", Size := 0 },
    { Key := "access_logs/2019-02.csv.gz", Size := 5 }]]

/-- Witness for C2 on a concrete two-page backend. -/
theorem C2_pagination_is_transparent_witness :
    (cfgAL.directory_assets.getD false = false) ∧ (0 < cPages.length) ∧
    (cPages.length ≤ 2) ∧
    (getAssetOptions (envOf (pagedBackend cPages) cMatchAll "t") genAL cfgAL
        2 none =
      getAssetOptions (envOf (singleBackend cPages.flatten) cMatchAll "t")
        genAL cfgAL 1 none ∧
    getAssetOptions (envOf (pagedBackend cPages) cMatchAll "t") genAL cfgAL
        2 none =
      some (.ok (pageKeys cMatchAll cfgAL cPages.flatten, none))) :=
  ⟨rfl, by decide, by decide,
    C2_pagination_is_transparent cPages genAL cfgAL cMatchAll "t" 2 rfl
      (by decide) (by decide)⟩
